import Mathlib

/-!
PDF Splitter Pro — verification of the specification against the code.

A shallow embedding of the PDF-splitter application:

* `splitPdfDocument` (services/pdfService.ts): per original page, two
  region-cropped copies described by their media boxes, over exact
  rationals.
* the preview controller (components/PdfPreview.tsx): document loading,
  page rendering, drag-to-percentage translation, and page navigation on
  an explicit `PreviewState`.
* `handleFileChange` (App.tsx): file selection on an explicit `AppState`.

Machine reals (page sizes, pointer coordinates, percentages) are modelled
as `ℚ`; JavaScript strings as `String`; DOM/async effects as explicit
state-passing functions, with the browser event loop for the asynchronous
parts modelled as a trace of events.
-/

/-- The `SplitOrientation` enum from types.ts. -/
inductive SplitOrientation where
  | vertical
  | horizontal
deriving DecidableEq, Repr

/-- The size of an original page, as returned by `page.getSize()`. -/
structure PageSize where
  width : ℚ
  height : ℚ
deriving DecidableEq, Repr

/-- A media box as set by pdf-lib's `setMediaBox(x, y, w, h)`: the box
spans `x` to `x + w` horizontally and `y` to `y + h` vertically. -/
structure MediaBox where
  x : ℚ
  y : ℚ
  w : ℚ
  h : ℚ
deriving DecidableEq, Repr

/-- `splitPdfDocument` from services/pdfService.ts, abstracted to the page
geometry: for each original page the two copies' media boxes, in the order
the pages are added to the new document (`newDoc.addPage(page1)` then
`newDoc.addPage(page2)`). -/
def splitPdfDocument (doc : List PageSize) (orientation : SplitOrientation)
    (percentage : ℚ) : List MediaBox :=
  doc.flatMap (fun pg =>
    match orientation with
    | .vertical =>
      let splitX := pg.width * (percentage / 100)
      [⟨0, 0, splitX, pg.height⟩, ⟨splitX, 0, pg.width - splitX, pg.height⟩]
    | .horizontal =>
      let splitY := pg.height * (percentage / 100)
      [⟨0, splitY, pg.width, pg.height - splitY⟩, ⟨0, 0, pg.width, splitY⟩])

/-- Length of a flat-map that emits exactly two elements per input. -/
lemma flatMap_pair_length {α β : Type} (l : List α) (f g : α → β) :
    (l.flatMap (fun x => [f x, g x])).length = 2 * l.length := by
  induction l with
  | nil => rfl
  | cons a t ih => simp [List.flatMap_cons, ih]; omega

/-- Indexing into a flat-map that emits exactly two elements per input:
position `2*i` holds the first element for input `i`, position `2*i+1`
the second. -/
lemma flatMap_pair_get {α β : Type} (l : List α) (f g : α → β) :
    ∀ i (hi : i < l.length),
      (l.flatMap (fun x => [f x, g x]))[2 * i]? = some (f (l.get ⟨i, hi⟩)) ∧
      (l.flatMap (fun x => [f x, g x]))[2 * i + 1]? = some (g (l.get ⟨i, hi⟩)) := by
  induction l with
  | nil => intro i hi; simp at hi
  | cons a t ih =>
    intro i hi
    cases i with
    | zero => simp [List.flatMap_cons]
    | succ j =>
      have hj : j < t.length := by simpa using hi
      have h2 : 2 * (j + 1) = (2 * j) + 1 + 1 := by omega
      rw [h2]
      simpa [List.flatMap_cons] using ih j hj

example : splitPdfDocument [⟨10, 20⟩] .vertical 30 =
    [⟨0, 0, 3, 20⟩, ⟨3, 0, 7, 20⟩] := by
  simp [splitPdfDocument]
  norm_num

example : splitPdfDocument [⟨8, 10⟩] .horizontal 70 =
    [⟨0, 7, 8, 3⟩, ⟨0, 0, 8, 7⟩] := by
  simp [splitPdfDocument]
  norm_num

/-- C1: for every document with N pages (N ≥ 1), every percentage p in
[1, 99] and Vertical orientation, `splitPdfDocument` returns 2N pages in
order (left, right, left, right, ...): for original page i of width w and
height h, position 2i holds the left copy spanning x from 0 to (p/100)·w,
and position 2i+1 the right copy spanning x from (p/100)·w to w, both of
height h (y spanning 0 to h). -/
theorem splitPdfDocument_vertical_spec (doc : List PageSize) (p : ℚ)
    (hN : 1 ≤ doc.length) (hp1 : 1 ≤ p) (hp2 : p ≤ 99) :
    (splitPdfDocument doc .vertical p).length = 2 * doc.length ∧
    ∀ i (hi : i < doc.length),
      ∃ L R,
        (splitPdfDocument doc .vertical p)[2 * i]? = some L ∧
        (splitPdfDocument doc .vertical p)[2 * i + 1]? = some R ∧
        L.x = 0 ∧ L.x + L.w = (p / 100) * (doc.get ⟨i, hi⟩).width ∧
        L.y = 0 ∧ L.h = (doc.get ⟨i, hi⟩).height ∧
        R.x = (p / 100) * (doc.get ⟨i, hi⟩).width ∧
        R.x + R.w = (doc.get ⟨i, hi⟩).width ∧
        R.y = 0 ∧ R.h = (doc.get ⟨i, hi⟩).height := by
  have hrw : splitPdfDocument doc .vertical p =
      doc.flatMap (fun pg =>
        [(⟨0, 0, pg.width * (p / 100), pg.height⟩ : MediaBox),
         ⟨pg.width * (p / 100), 0, pg.width - pg.width * (p / 100), pg.height⟩]) := rfl
  constructor
  · rw [hrw]
    exact flatMap_pair_length doc _ _
  · intro i hi
    obtain ⟨h1, h2⟩ := flatMap_pair_get doc
      (fun pg => (⟨0, 0, pg.width * (p / 100), pg.height⟩ : MediaBox))
      (fun pg => ⟨pg.width * (p / 100), 0, pg.width - pg.width * (p / 100), pg.height⟩) i hi
    refine ⟨_, _, by rw [hrw]; exact h1, by rw [hrw]; exact h2,
      rfl, by ring, rfl, rfl, by ring, by ring, rfl, rfl⟩

/-- C1 witness: a 4-page document (each page 10 × 20) at percentage 30
yields 8 pages. -/
theorem splitPdfDocument_vertical_spec_witness :
    (splitPdfDocument [⟨10, 20⟩, ⟨10, 20⟩, ⟨10, 20⟩, ⟨10, 20⟩] .vertical 30).length = 8 := by
  have h := splitPdfDocument_vertical_spec
    [⟨10, 20⟩, ⟨10, 20⟩, ⟨10, 20⟩, ⟨10, 20⟩] 30 (by norm_num) (by norm_num) (by norm_num)
  simpa using h.1

/-- C2: for every document page of width w and height H and every
percentage p in [1, 99], Horizontal orientation, `splitPdfDocument` emits
for page i first (position 2i) a top region spanning y from
splitY = (p/100)·H to H (height H − splitY) and then (position 2i+1) a
bottom region spanning y from 0 to splitY, both of width w. -/
theorem splitPdfDocument_horizontal_spec (doc : List PageSize) (p : ℚ)
    (hp1 : 1 ≤ p) (hp2 : p ≤ 99) :
    ∀ i (hi : i < doc.length),
      ∃ T B,
        (splitPdfDocument doc .horizontal p)[2 * i]? = some T ∧
        (splitPdfDocument doc .horizontal p)[2 * i + 1]? = some B ∧
        T.y = (p / 100) * (doc.get ⟨i, hi⟩).height ∧
        T.y + T.h = (doc.get ⟨i, hi⟩).height ∧
        T.h = (doc.get ⟨i, hi⟩).height - (p / 100) * (doc.get ⟨i, hi⟩).height ∧
        T.w = (doc.get ⟨i, hi⟩).width ∧ T.x = 0 ∧
        B.y = 0 ∧ B.y + B.h = (p / 100) * (doc.get ⟨i, hi⟩).height ∧
        B.w = (doc.get ⟨i, hi⟩).width ∧ B.x = 0 := by
  have hrw : splitPdfDocument doc .horizontal p =
      doc.flatMap (fun pg =>
        [(⟨0, pg.height * (p / 100), pg.width, pg.height - pg.height * (p / 100)⟩ : MediaBox),
         ⟨0, 0, pg.width, pg.height * (p / 100)⟩]) := rfl
  intro i hi
  obtain ⟨h1, h2⟩ := flatMap_pair_get doc
    (fun pg => (⟨0, pg.height * (p / 100), pg.width,
                 pg.height - pg.height * (p / 100)⟩ : MediaBox))
    (fun pg => ⟨0, 0, pg.width, pg.height * (p / 100)⟩) i hi
  refine ⟨_, _, by rw [hrw]; exact h1, by rw [hrw]; exact h2,
    by ring, by ring, by ring, rfl, rfl, rfl, by ring, rfl, rfl⟩

/-- C2 witness: at percentage 70 on a single 8 × 10 page, the top region
(position 0) is the media box (0, 7, 8, 3) — height 0.30·H — and the
bottom region (position 1) is (0, 0, 8, 7) — height 0.70·H. -/
theorem splitPdfDocument_horizontal_spec_witness :
    (splitPdfDocument [⟨8, 10⟩] .horizontal 70)[0]? = some ⟨0, 7, 8, 3⟩ ∧
    (splitPdfDocument [⟨8, 10⟩] .horizontal 70)[1]? = some ⟨0, 0, 8, 7⟩ := by
  obtain ⟨T, B, e1, e2, h1, h2, h3, h4, h5, h6, h7, h8, h9⟩ :=
    splitPdfDocument_horizontal_spec [⟨8, 10⟩] 70 (by norm_num) (by norm_num) 0 (by norm_num)
  have hT : T = ⟨0, 7, 8, 3⟩ := by
    obtain ⟨t1, t2, t3, t4⟩ := T
    simp only [List.get] at h1 h3 h4 h5
    norm_num at h1 h3 h4 h5
    simp [h1, h3, h4, h5]
  have hB : B = ⟨0, 0, 8, 7⟩ := by
    obtain ⟨b1, b2, b3, b4⟩ := B
    simp only [List.get] at h6 h7 h8 h9
    norm_num at h6 h8 h9
    subst h6
    norm_num at h7
    simp [h7, h8, h9]
  rw [hT] at e1
  rw [hB] at e2
  exact ⟨by simpa using e1, by simpa using e2⟩

/-- The bounding rectangle returned by `getBoundingClientRect()` on the
overlay element. -/
structure DOMRectModel where
  left : ℚ
  top : ℚ
  width : ℚ
  height : ℚ
deriving DecidableEq, Repr

/-- JavaScript `Math.round` on exact rationals: round half towards
positive infinity, i.e. `⌊q + 1/2⌋`. -/
def jsRound (q : ℚ) : ℤ := ⌊q + 1 / 2⌋

/-- `calculatePercentage` from components/PdfPreview.tsx: project the
pointer position onto the overlay's active axis, scale to a percentage,
clamp between 1 and 99 (`Math.max(1, Math.min(99, newPercent))`), and
report `Math.round` of the clamped value to the percentage-change
callback. -/
def calculatePercentage (orientation : SplitOrientation)
    (clientX clientY : ℚ) (rect : DOMRectModel) : ℤ :=
  let newPercent : ℚ :=
    match orientation with
    | .vertical => (clientX - rect.left) / rect.width * 100
    | .horizontal => (clientY - rect.top) / rect.height * 100
  jsRound (max 1 (min 99 newPercent))

/-- Rounding and clamping commute when the clamp bounds are the integers
1 and 99: `round (clamp q)` = `clamp (round q)`, and the result lies in
[1, 99]. -/
lemma jsRound_clamp (q : ℚ) :
    jsRound (max 1 (min 99 q)) = max 1 (min 99 (jsRound q)) ∧
    1 ≤ jsRound (max 1 (min 99 q)) ∧ jsRound (max 1 (min 99 q)) ≤ 99 := by
  have floor32 : (⌊(3 / 2 : ℚ)⌋ : ℤ) = 1 := by norm_num [Int.floor_eq_iff]
  have floor199 : (⌊(199 / 2 : ℚ)⌋ : ℤ) = 99 := by norm_num [Int.floor_eq_iff]
  rcases le_total q 1 with h1 | h1
  · have hmin : min 99 q = q := min_eq_right (by linarith)
    have hmax : max 1 q = 1 := max_eq_left h1
    have hz : jsRound q ≤ 1 := by
      have := Int.floor_le_floor (α := ℚ) (show q + 1 / 2 ≤ 3 / 2 by linarith)
      simpa [jsRound, floor32] using this
    have hL : jsRound (max 1 (min 99 q)) = 1 := by
      rw [hmin, hmax]
      norm_num [jsRound, Int.floor_eq_iff]
    refine ⟨?_, by rw [hL], by rw [hL]; norm_num⟩
    rw [hL, min_eq_right (by linarith : jsRound q ≤ (99 : ℤ)), max_eq_left hz]
  · rcases le_total q 99 with h2 | h2
    · have hmin : min 99 q = q := min_eq_right h2
      have hmax : max 1 q = q := max_eq_right h1
      have hlo : (1 : ℤ) ≤ jsRound q := by
        have := Int.floor_le_floor (α := ℚ) (show (3 / 2 : ℚ) ≤ q + 1 / 2 by linarith)
        simpa [jsRound, floor32] using this
      have hhi : jsRound q ≤ 99 := by
        have := Int.floor_le_floor (α := ℚ) (show q + 1 / 2 ≤ (199 / 2 : ℚ) by linarith)
        simpa [jsRound, floor199] using this
      rw [hmin, hmax, min_eq_right hhi, max_eq_right hlo]
      exact ⟨rfl, hlo, hhi⟩
    · have hmin : min 99 q = 99 := min_eq_left h2
      have hL : jsRound (max 1 (min 99 q)) = 99 := by
        rw [hmin, max_eq_right (by norm_num : (1 : ℚ) ≤ 99)]
        norm_num [jsRound, Int.floor_eq_iff]
      have hhi : (99 : ℤ) ≤ jsRound q := by
        have := Int.floor_le_floor (α := ℚ) (show (199 / 2 : ℚ) ≤ q + 1 / 2 by linarith)
        simpa [jsRound, floor199] using this
      refine ⟨?_, by rw [hL]; norm_num, by rw [hL]⟩
      rw [hL, min_eq_left hhi, max_eq_right (by linarith : (1 : ℤ) ≤ 99)]

/-- C3: for every drag event with pointer coordinates (clientX, clientY)
and overlay rectangle with positive width and height, the computed
percentage equals: take fraction = (clientX − rect.left) / rect.width for
Vertical (resp. (clientY − rect.top) / rect.height for Horizontal),
multiply by 100, round to the nearest integer, clamp to [1, 99]; and the
reported value always lies in [1, 99] regardless of pointer overshoot. -/
theorem calculatePercentage_spec (orientation : SplitOrientation)
    (clientX clientY : ℚ) (rect : DOMRectModel)
    (hw : 0 < rect.width) (hh : 0 < rect.height) :
    calculatePercentage orientation clientX clientY rect =
      max 1 (min 99 (jsRound
        ((match orientation with
          | .vertical => (clientX - rect.left) / rect.width
          | .horizontal => (clientY - rect.top) / rect.height) * 100))) ∧
    1 ≤ calculatePercentage orientation clientX clientY rect ∧
    calculatePercentage orientation clientX clientY rect ≤ 99 := by
  cases orientation with
  | vertical =>
    have h := jsRound_clamp ((clientX - rect.left) / rect.width * 100)
    exact ⟨h.1, h.2.1, h.2.2⟩
  | horizontal =>
    have h := jsRound_clamp ((clientY - rect.top) / rect.height * 100)
    exact ⟨h.1, h.2.1, h.2.2⟩

/-- C3 witness: a vertical drag at clientX = 250 over an overlay with
left = 50 and width = 400 reports round(50) = 50, inside [1, 99]. -/
theorem calculatePercentage_spec_witness :
    calculatePercentage .vertical 250 0 ⟨50, 0, 400, 300⟩ = 50 ∧
    1 ≤ calculatePercentage .vertical 250 0 ⟨50, 0, 400, 300⟩ ∧
    calculatePercentage .vertical 250 0 ⟨50, 0, 400, 300⟩ ≤ 99 := by
  have h := calculatePercentage_spec .vertical 250 0 ⟨50, 0, 400, 300⟩
    (by norm_num) (by norm_num)
  refine ⟨?_, h.2.1, h.2.2⟩
  rw [h.1]
  norm_num [jsRound, Int.floor_eq_iff]

/-- One decimal digit character, as produced by JavaScript
`Number.prototype.toString` for a digit value below ten. -/
def digitChar (d : Nat) : Char :=
  if d = 0 then '0' else if d = 1 then '1' else if d = 2 then '2'
  else if d = 3 then '3' else if d = 4 then '4' else if d = 5 then '5'
  else if d = 6 then '6' else if d = 7 then '7' else if d = 8 then '8'
  else '9'

/-- Decimal digit characters of a natural number, most significant first;
`fuel` bounds the recursion depth (any `fuel > n` is enough). -/
def natDigitsAux : Nat → Nat → List Char
  | 0, _ => []
  | fuel + 1, n =>
    if n < 10 then [digitChar n]
    else natDigitsAux fuel (n / 10) ++ [digitChar (n % 10)]

/-- JavaScript `Number.prototype.toString` (and template interpolation)
for a non-negative integer: its decimal digit string. -/
def natRepr (n : Nat) : String :=
  String.mk (natDigitsAux (n + 1) n)

/-- The test `/^\d+$/.test(val)`: non-empty and all decimal digits. -/
def digitsOnlyTest (s : String) : Bool :=
  !s.data.isEmpty && s.data.all Char.isDigit

/-- JavaScript `parseInt(s, 10)` restricted to the page-input buffer's
reachable domain (the empty string or a string of decimal digits, the
only values `handlePageInputChange` lets through): `none` for the empty
string (NaN), otherwise the decimal value. -/
def jsParseInt (s : String) : Option Nat :=
  if digitsOnlyTest s then
    some (s.data.foldl (fun acc c => 10 * acc + (c.toNat - 48)) 0)
  else none

/-- A requested document load: the selected file (identified by `fid`)
and the page count its decoded document will report. -/
structure LoadReq where
  fid : Nat
  pages : Nat
deriving DecidableEq, Repr

/-- The state of the `PdfPreview` component: its React state hooks
(`pdfDoc`, `totalPages`, `currentPage`, `pageInput`, `isLoading`,
`error`), the canvas raster surface (`canvas` = the page painted on it,
`none` when cleared), and the event-loop bookkeeping for asynchronous
loads (`latestFile` = the most recently selected file, `pending` = the
in-flight `loadPdf` calls in start order). -/
structure PreviewState where
  pdfDoc : Option Nat
  totalPages : Nat
  currentPage : Nat
  pageInput : String
  canvas : Option Nat
  error : Option String
  isLoading : Bool
  latestFile : Option Nat
  pending : List LoadReq
deriving DecidableEq, Repr

/-- The file effect of PdfPreview.tsx: on a null file, clear `pdfDoc`,
reset `totalPages`/`currentPage`/`pageInput`, and clear the canvas; on a
non-null file, start `loadPdf` — set `isLoading`, clear `error`, and
enqueue the asynchronous load (its result is committed later, when its
promise resolves). -/
def fileEffect (file : Option LoadReq) (s : PreviewState) : PreviewState :=
  match file with
  | none =>
    { s with pdfDoc := none, totalPages := 0, currentPage := 1,
             pageInput := "1", canvas := none, latestFile := none }
  | some r =>
    { s with isLoading := true, error := none,
             latestFile := some r.fid, pending := s.pending ++ [r] }

/-- Resolution of the `i`-th in-flight `loadPdf` call: the awaited
promise completes and the continuation runs unconditionally —
`setPdfDoc(doc)`, `setTotalPages(doc.numPages)`, `setCurrentPage(1)`,
and finally `setIsLoading(false)`. There is no staleness check. -/
def loadResolve (i : Nat) (s : PreviewState) : PreviewState :=
  match s.pending[i]? with
  | none => s
  | some r =>
    { s with pdfDoc := some r.fid, totalPages := r.pages, currentPage := 1,
             isLoading := false, pending := s.pending.eraseIdx i }

/-- An event of the preview's asynchronous event loop: a file selection
(re-running the file effect) or the resolution of an in-flight load. -/
inductive PreviewEv where
  | selectFile : Option LoadReq → PreviewEv
  | resolveLoad : Nat → PreviewEv
deriving DecidableEq, Repr

/-- One event-loop step. -/
def stepEv (s : PreviewState) (e : PreviewEv) : PreviewState :=
  match e with
  | .selectFile f => fileEffect f s
  | .resolveLoad i => loadResolve i s

/-- Run a trace of event-loop events from a starting state. -/
def runTrace (s : PreviewState) (es : List PreviewEv) : PreviewState :=
  es.foldl stepEv s

/-- The initial state of a freshly mounted `PdfPreview`. -/
def initialPreview : PreviewState :=
  { pdfDoc := none, totalPages := 0, currentPage := 1, pageInput := "1",
    canvas := none, error := none, isLoading := false, latestFile := none,
    pending := [] }

/-- The `renderPage` invocation of the render effect, as a function of
its interleaving with cancellation: `pid` is the page it renders,
`getPageFails` whether the awaited steps throw, `cancelAtCheck` the value
of the per-invocation `isCancelled` flag at the `if (isCancelled) return`
check after `await pdfDoc.getPage(...)`, and `cancelAtCatch` its value at
the `if (!isCancelled)` check in the catch handler. The invocation first
runs `setError(null)`, then either returns early, paints the canvas, or
records the render error. -/
def renderPageRun (pid : Nat) (getPageFails cancelAtCheck cancelAtCatch : Bool)
    (s : PreviewState) : PreviewState :=
  let s1 := { s with error := none }
  if getPageFails then
    if cancelAtCatch then s1
    else { s1 with error := some "Error rendering this page." }
  else if cancelAtCheck then s1
  else { s1 with canvas := some pid }

/-- `handlePrevPage` from PdfPreview.tsx. -/
def handlePrevPage (s : PreviewState) : PreviewState :=
  if s.currentPage > 1 then { s with currentPage := s.currentPage - 1 } else s

/-- `handleNextPage` from PdfPreview.tsx. -/
def handleNextPage (s : PreviewState) : PreviewState :=
  if s.currentPage < s.totalPages then { s with currentPage := s.currentPage + 1 }
  else s

/-- `handlePageInputChange` from PdfPreview.tsx: accept the new buffer
value only when it is the empty string or matches `/^\d+$/`. -/
def handlePageInputChange (val : String) (s : PreviewState) : PreviewState :=
  if val = "" || digitsOnlyTest val then { s with pageInput := val } else s

/-- The `useEffect` of PdfPreview.tsx that re-synchronizes the page-input
buffer whenever `currentPage` changes: `setPageInput(currentPage.toString())`. -/
def syncPageInput (s : PreviewState) : PreviewState :=
  { s with pageInput := natRepr s.currentPage }

/-- `handlePageInputSubmit` from PdfPreview.tsx: parse the buffer; on NaN
revert the buffer to the current page, otherwise clamp sequentially
(`if (pageNum < 1) pageNum = 1; if (pageNum > totalPages) pageNum = totalPages`),
set `currentPage`, and rewrite the buffer. -/
def handlePageInputSubmit (s : PreviewState) : PreviewState :=
  match jsParseInt s.pageInput with
  | none => { s with pageInput := natRepr s.currentPage }
  | some n0 =>
    let n1 := if n0 < 1 then 1 else n0
    let n2 := if n1 > s.totalPages then s.totalPages else n1
    { s with currentPage := n2, pageInput := natRepr n2 }

/-- Every character emitted by `digitChar` is a decimal digit. -/
lemma digitChar_isDigit (d : Nat) : (digitChar d).isDigit = true := by
  unfold digitChar
  repeat' split
  all_goals decide

/-- Every character of a decimal representation is a decimal digit. -/
lemma natDigitsAux_all_digits :
    ∀ fuel n, (natDigitsAux fuel n).all Char.isDigit = true := by
  intro fuel
  induction fuel with
  | zero => intro n; rfl
  | succ f ih =>
    intro n
    unfold natDigitsAux
    split
    · simp [digitChar_isDigit]
    · simp [List.all_append, ih, digitChar_isDigit]

/-- The decimal string of a natural number consists of digits only. -/
lemma natRepr_all_digits (n : Nat) :
    (natRepr n).data.all Char.isDigit = true :=
  natDigitsAux_all_digits (n + 1) n

/-- C4 (failing execution): select file 1, then select file 2 while
file 1's load is still in flight; file 2's load resolves first, then
file 1's stale load resolves. The code commits the stale result: the
displayed document is file 1's (with its page count) although file 2 was
the most recently selected file. -/
theorem loadPdf_stale_commit :
    (runTrace initialPreview
      [.selectFile (some ⟨1, 5⟩), .selectFile (some ⟨2, 7⟩),
       .resolveLoad 1, .resolveLoad 0]).pdfDoc = some 1 ∧
    (runTrace initialPreview
      [.selectFile (some ⟨1, 5⟩), .selectFile (some ⟨2, 7⟩),
       .resolveLoad 1, .resolveLoad 0]).totalPages = 5 ∧
    (runTrace initialPreview
      [.selectFile (some ⟨1, 5⟩), .selectFile (some ⟨2, 7⟩),
       .resolveLoad 1, .resolveLoad 0]).latestFile = some 2 := by
  exact ⟨rfl, rfl, rfl⟩

/-- C5: if the per-invocation `isCancelled` flag (set by the effect
cleanup when `currentPage` or the document handle changes before the
render completes) is set at the invocation's checks, the stale render
applies nothing: the canvas is unchanged and no error message is
written — regardless of whether the awaited steps succeed or throw. -/
theorem renderPage_cancelled (pid : Nat) (getPageFails : Bool) (s : PreviewState) :
    (renderPageRun pid getPageFails true true s).canvas = s.canvas ∧
    ∀ m, (renderPageRun pid getPageFails true true s).error ≠ some m := by
  cases getPageFails <;> simp [renderPageRun]

/-- C5 witness: a cancelled render of page 2 over the initial state
leaves the canvas cleared and writes no error message. -/
theorem renderPage_cancelled_witness :
    (renderPageRun 2 false true true initialPreview).canvas = none ∧
    (renderPageRun 2 true true true initialPreview).error ≠
      some "Error rendering this page." := by
  have ha := renderPage_cancelled 2 false initialPreview
  have hb := renderPage_cancelled 2 true initialPreview
  exact ⟨by rw [ha.1]; rfl, hb.2 "Error rendering this page."⟩

/-- C6: on page-input commit with `1 ≤ totalPages`: an unparseable
buffer reverts the buffer to `currentPage`'s decimal string and leaves
`currentPage` unchanged; a parsed value `n` is clamped to
[1, totalPages], `currentPage` is set to the clamped value, and the
buffer is rewritten to its decimal string. -/
theorem handlePageInputSubmit_spec (s : PreviewState) (hT : 1 ≤ s.totalPages) :
    (jsParseInt s.pageInput = none →
      handlePageInputSubmit s = { s with pageInput := natRepr s.currentPage }) ∧
    ∀ n, jsParseInt s.pageInput = some n →
      handlePageInputSubmit s =
        { s with currentPage := min (max 1 n) s.totalPages,
                 pageInput := natRepr (min (max 1 n) s.totalPages) } := by
  constructor
  · intro h
    unfold handlePageInputSubmit
    rw [h]
  · intro n h
    unfold handlePageInputSubmit
    rw [h]
    have hc : (if (if n < 1 then 1 else n) > s.totalPages then s.totalPages
               else if n < 1 then 1 else n) = min (max 1 n) s.totalPages := by
      rcases Nat.lt_or_ge n 1 with h1 | h1
      · rw [if_pos h1, if_neg (by omega : ¬ (1 > s.totalPages))]
        omega
      · rw [if_neg (by omega : ¬ n < 1)]
        rcases Nat.lt_or_ge s.totalPages n with h2 | h2
        · rw [if_pos (by omega : n > s.totalPages)]
          omega
        · rw [if_neg (by omega : ¬ n > s.totalPages)]
          omega
    simp only [hc]

/-- C6 witness: with totalPages = 10 and buffer "15", commit yields
currentPage = 10 and buffer "10". -/
theorem handlePageInputSubmit_spec_witness :
    handlePageInputSubmit
      { initialPreview with totalPages := 10, currentPage := 3, pageInput := "15" } =
      { initialPreview with totalPages := 10, currentPage := 10, pageInput := "10" } := by
  have h := (handlePageInputSubmit_spec
    { initialPreview with totalPages := 10, currentPage := 3, pageInput := "15" }
    (by norm_num)).2 15 (by rfl)
  rw [h]
  rfl

/-- C7: with 1 ≤ currentPage ≤ totalPages, Next at the last page and
Previous at page 1 are no-ops, and otherwise Next increments and
Previous decrements `currentPage` by exactly 1. -/
theorem pageNavigation_spec (s : PreviewState) (h1 : 1 ≤ s.currentPage)
    (h2 : s.currentPage ≤ s.totalPages) :
    (s.currentPage = s.totalPages → handleNextPage s = s) ∧
    (s.currentPage = 1 → handlePrevPage s = s) ∧
    (s.currentPage < s.totalPages →
      (handleNextPage s).currentPage = s.currentPage + 1) ∧
    (1 < s.currentPage → (handlePrevPage s).currentPage = s.currentPage - 1) := by
  refine ⟨?_, ?_, ?_, ?_⟩
  · intro h
    simp [handleNextPage, h]
  · intro h
    simp [handlePrevPage, h]
  · intro h
    simp [handleNextPage, h]
  · intro h
    simp [handlePrevPage, h]

/-- C7 witness: in a 3-page document at page 2, Next reaches page 3 and
Previous reaches page 1; at page 1, Previous is a no-op. -/
theorem pageNavigation_spec_witness :
    (handleNextPage { initialPreview with totalPages := 3, currentPage := 2 }).currentPage = 3 ∧
    (handlePrevPage { initialPreview with totalPages := 3, currentPage := 2 }).currentPage = 1 ∧
    handlePrevPage { initialPreview with totalPages := 3, currentPage := 1 } =
      { initialPreview with totalPages := 3, currentPage := 1 } := by
  have h := pageNavigation_spec { initialPreview with totalPages := 3, currentPage := 2 }
    (by norm_num) (by norm_num)
  have h' := pageNavigation_spec { initialPreview with totalPages := 3, currentPage := 1 }
    (by norm_num) (by norm_num)
  exact ⟨by simpa using h.2.2.1 (by norm_num), by simpa using h.2.2.2 (by norm_num),
    h'.2.1 rfl⟩

/-- C8: the page-input buffer only ever holds the empty string or a
string of decimal digits: an editing change whose new value is neither
empty nor all digits is rejected with the state unchanged, any accepted
change keeps the buffer all-digits, and the resynchronization effect
rewrites the buffer to `currentPage`'s decimal string — itself a digit
string. -/
theorem pageInputBuffer_invariant (s : PreviewState) (val : String) :
    (¬ (val = "" ∨ digitsOnlyTest val = true) → handlePageInputChange val s = s) ∧
    (s.pageInput.data.all Char.isDigit = true →
      (handlePageInputChange val s).pageInput.data.all Char.isDigit = true) ∧
    (syncPageInput s).pageInput = natRepr s.currentPage ∧
    (natRepr s.currentPage).data.all Char.isDigit = true := by
  refine ⟨?_, ?_, rfl, natRepr_all_digits s.currentPage⟩
  · intro hrej
    unfold handlePageInputChange
    rw [if_neg]
    simpa [Bool.or_eq_true, decide_eq_true_eq] using hrej
  · intro hs
    unfold handlePageInputChange
    split
    · next hcond =>
      have hd : val = "" ∨ val.data.all Char.isDigit = true := by
        simp only [Bool.or_eq_true, decide_eq_true_eq, digitsOnlyTest,
          Bool.and_eq_true] at hcond
        tauto
      rcases hd with hv | hv
      · simp [hv]
      · simpa using hv
    · exact hs

/-- C8 witness: the change "a1" is rejected on the initial state, while
the accepted change "42" keeps the buffer a digit string. -/
theorem pageInputBuffer_invariant_witness :
    handlePageInputChange "a1" initialPreview = initialPreview ∧
    (handlePageInputChange "42" initialPreview).pageInput.data.all Char.isDigit = true := by
  refine ⟨(pageInputBuffer_invariant initialPreview "a1").1 (by decide),
          (pageInputBuffer_invariant initialPreview "42").2.1 (by decide)⟩

/-- C9: on a null source file the file effect clears the document
handle, sets totalPages = 0, currentPage = 1, the page-input text to
"1", clears the raster surface, and raises no error (the error state is
untouched). -/
theorem fileEffect_null_spec (s : PreviewState) :
    (fileEffect none s).pdfDoc = none ∧
    (fileEffect none s).totalPages = 0 ∧
    (fileEffect none s).currentPage = 1 ∧
    (fileEffect none s).pageInput = "1" ∧
    (fileEffect none s).canvas = none ∧
    (fileEffect none s).error = s.error := by
  simp [fileEffect]

/-- A selected file as seen by `handleFileChange`: its name and its MIME
type (`selectedFile.type`). -/
structure FileModel where
  name : String
  mime : String
deriving DecidableEq, Repr

/-- The `ProcessingStatus` record from types.ts. -/
structure ProcessingStatus where
  isProcessing : Bool
  error : Option String
  successMessage : Option String
deriving DecidableEq, Repr

/-- The state hooks of App.tsx. -/
structure AppState where
  file : Option FileModel
  orientation : SplitOrientation
  percentage : ℚ
  status : ProcessingStatus
deriving DecidableEq, Repr

/-- `handleFileChange` from App.tsx, for an event carrying a selected
file: reject non-PDF MIME types with an error message (spreading the old
status, clearing the success message); otherwise store the file, clear
the status, and reset the percentage to 50. -/
def handleFileChange (selectedFile : FileModel) (s : AppState) : AppState :=
  if selectedFile.mime ≠ "application/pdf" then
    { s with status := { isProcessing := s.status.isProcessing,
                         error := some "Please upload a valid PDF file.",
                         successMessage := none } }
  else
    { s with file := some selectedFile,
             status := { isProcessing := false, error := none,
                         successMessage := none },
             percentage := 50 }

/-- C10: on a file-selection event, a file whose MIME type is not
'application/pdf' sets an error message and leaves the stored file and
the split percentage unchanged; a PDF file is stored, the status is
cleared, and the split percentage is reset to 50. -/
theorem handleFileChange_spec (selectedFile : FileModel) (s : AppState) :
    (selectedFile.mime ≠ "application/pdf" →
      (handleFileChange selectedFile s).status.error =
        some "Please upload a valid PDF file." ∧
      (handleFileChange selectedFile s).file = s.file ∧
      (handleFileChange selectedFile s).percentage = s.percentage) ∧
    (selectedFile.mime = "application/pdf" →
      (handleFileChange selectedFile s).file = some selectedFile ∧
      (handleFileChange selectedFile s).status =
        { isProcessing := false, error := none, successMessage := none } ∧
      (handleFileChange selectedFile s).percentage = 50) := by
  constructor
  · intro h
    simp [handleFileChange, h]
  · intro h
    simp [handleFileChange, h]

/-- C10 witness: a text file is rejected with the stored file and
percentage untouched; a PDF file is stored with the percentage reset
to 50. -/
theorem handleFileChange_spec_witness :
    (handleFileChange ⟨"a.txt", "text/plain"⟩
        ⟨none, .vertical, 30, ⟨false, none, none⟩⟩).status.error =
      some "Please upload a valid PDF file." ∧
    (handleFileChange ⟨"a.txt", "text/plain"⟩
        ⟨none, .vertical, 30, ⟨false, none, none⟩⟩).percentage = 30 ∧
    (handleFileChange ⟨"b.pdf", "application/pdf"⟩
        ⟨none, .vertical, 30, ⟨false, none, none⟩⟩).file =
      some ⟨"b.pdf", "application/pdf"⟩ ∧
    (handleFileChange ⟨"b.pdf", "application/pdf"⟩
        ⟨none, .vertical, 30, ⟨false, none, none⟩⟩).percentage = 50 := by
  have h1 := (handleFileChange_spec ⟨"a.txt", "text/plain"⟩
    ⟨none, .vertical, 30, ⟨false, none, none⟩⟩).1 (by decide)
  have h2 := (handleFileChange_spec ⟨"b.pdf", "application/pdf"⟩
    ⟨none, .vertical, 30, ⟨false, none, none⟩⟩).2 rfl
  exact ⟨h1.1, h1.2.2, h2.1, h2.2.2⟩
